import Mathlib

/-!
Verification of the annotation-translation logic of
`skills/documentation/templates/capture-screenshots.py`.

The embedding models:
* `get_element_bounds` output dicts as the `Bounds` structure (integer pixel
  coordinates; the `center_x`/`center_y` fields are carried in the record just
  as the Python dict carries them, and `mkBounds` builds them from a
  non-negative rect exactly as the source does, `int(x + width/2)`).
* `TYPE_MAPPING` / `DEFAULT_COLORS` dicts as functions `String → Option String`
  (`dict.get k default` becomes `(f k).getD default`).
* MCP annotation dicts as the tagged type `McpAnn`: each `elif` branch of
  `convert_to_mcp_format` writes a fixed set of keys, which becomes one
  constructor. The final `return mcp_ann` with no matching branch returns the
  bare `{"type": mcp_type}` dict, modelled by the `passthrough` constructor.
  The optional `"_label"` sub-dict (always a `label`-typed dict) is the second
  component of the returned pair.
* `extract_annotations` loops over the request list with `enumerate`; the
  per-iteration record and command list are factored into `recordOf` and
  `commandsOf`, and the loop itself into the structurally recursive
  `extractGo`. The browser page plus `get_element_bounds` is modelled as a
  pure lookup `String → Option Bounds` (the Python helper catches all
  exceptions and returns `None`, so `Option` is exact).

Python's floor division `//` is embedded as `Int.fdiv`.
-/

set_option autoImplicit false

namespace CaptureScreenshots

/-- Output of `get_element_bounds`: the element's bounding box plus its
precomputed integer center, mirroring the Python dict
`{x, y, width, height, center_x, center_y}`. -/
structure Bounds where
  x : ℤ
  y : ℤ
  width : ℤ
  height : ℤ
  center_x : ℤ
  center_y : ℤ
  deriving DecidableEq, Repr

/-- Builds the bounds record for a non-negative pixel rect exactly as
`get_element_bounds` does: `center_x = int(x + width/2)`,
`center_y = int(y + height/2)` (floor, since all inputs are non-negative). -/
def mkBounds (x y w h : ℕ) : Bounds :=
  { x := (x : ℤ), y := (y : ℤ), width := (w : ℤ), height := (h : ℤ),
    center_x := ((x + w / 2 : ℕ) : ℤ), center_y := ((y + h / 2 : ℕ) : ℤ) }

/-- `TYPE_MAPPING` dict: capture-script semantic type → MCP annotation type. -/
def TYPE_MAPPING (s : String) : Option String :=
  if s = "box" then some "rect"
  else if s = "number" then some "marker"
  else if s = "arrow" then some "arrow"
  else if s = "circle" then some "circle"
  else if s = "highlight" then some "highlight"
  else if s = "callout" then some "callout"
  else if s = "label" then some "label"
  else if s = "blur" then some "blur"
  else none

/-- `DEFAULT_COLORS` dict: MCP annotation type → default color. -/
def DEFAULT_COLORS (s : String) : Option String :=
  if s = "marker" then some "primary"
  else if s = "rect" then some "red"
  else if s = "arrow" then some "primary"
  else if s = "circle" then some "red"
  else if s = "highlight" then some "yellow"
  else if s = "callout" then some "primary"
  else if s = "label" then some "darkGray"
  else none

/-- One MCP annotation dict. Each constructor lists exactly the keys the
corresponding branch of `convert_to_mcp_format` writes, in source order
(after the initial `{"type": mcp_type}`). `passthrough t` is the dict holding
only `{"type": t}`, produced when no branch matches. -/
inductive McpAnn where
  | marker (x y : ℤ) (number : ℕ) (color : String) (size : ℕ)
  | rect (x y width height : ℤ) (color : String) (strokeWidth : ℕ)
  | arrow (fromPt toPt : ℤ × ℤ) (color : String) (strokeWidth : ℕ)
  | circle (x y radius : ℤ) (color : String) (strokeWidth : ℕ)
  | highlight (x y width height : ℤ) (color : String) (opacity : ℚ)
  | callout (x y : ℤ) (text pointer color background : String) (shadow : Bool)
  | label (x y : ℤ) (text color : String) (fontSize : ℕ) (background : String) (shadow : Bool)
  | blur (x y width height : ℤ) (intensity : ℕ)
  | passthrough (type : String)
  deriving DecidableEq, Repr

/-- `convert_to_mcp_format(ann_type, bounds, label, position, number)`.
Returns the primary annotation and, when the branch sets `mcp_ann["_label"]`,
the auxiliary label annotation (the Python `"_label"` sub-dict). -/
def convert_to_mcp_format (ann_type : String) (bounds : Bounds)
    (label : String) (position : String) (number : ℕ) :
    McpAnn × Option McpAnn :=
  let mcp_type := (TYPE_MAPPING ann_type).getD ann_type
  let color := (DEFAULT_COLORS mcp_type).getD "red"
  if mcp_type = "marker" then
    (.marker bounds.center_x bounds.center_y number color 24, none)
  else if mcp_type = "rect" then
    let padding : ℤ := 4
    let main := McpAnn.rect (bounds.x - padding) (bounds.y - padding)
      (bounds.width + padding * 2) (bounds.height + padding * 2) color 3
    (main,
      if label = "" then none
      else
        let lpos : ℤ × ℤ :=
          if position = "top" then (bounds.center_x, bounds.y - 25)
          else if position = "bottom" then (bounds.center_x, bounds.y + bounds.height + 20)
          else if position = "left" then (bounds.x - 10, bounds.center_y)
          else (bounds.x + bounds.width + 15, bounds.center_y)
        some (.label lpos.1 lpos.2 label "darkGray" 14 "white" true))
  else if mcp_type = "arrow" then
    let label_offset : ℤ := 100
    let pts : (ℤ × ℤ) × (ℤ × ℤ) :=
      if position = "left" then
        ((bounds.x - label_offset, bounds.center_y), (bounds.x - 5, bounds.center_y))
      else if position = "right" then
        ((bounds.x + bounds.width + label_offset, bounds.center_y),
         (bounds.x + bounds.width + 5, bounds.center_y))
      else if position = "top" then
        ((bounds.center_x, bounds.y - label_offset), (bounds.center_x, bounds.y - 5))
      else if position = "bottom" then
        ((bounds.center_x, bounds.y + bounds.height + label_offset),
         (bounds.center_x, bounds.y + bounds.height + 5))
      else
        ((bounds.x + bounds.width + label_offset, bounds.center_y),
         (bounds.x + bounds.width + 5, bounds.center_y))
    let main := McpAnn.arrow pts.1 pts.2 color 2
    (main,
      if label = "" then none
      else
        some (.label
          (pts.1.1 + (if position = "left" ∨ position = "auto" then 10 else -10))
          pts.1.2 label "darkGray" 14 "white" true))
  else if mcp_type = "circle" then
    let radius := Int.fdiv (max bounds.width bounds.height) 2 + 8
    let main := McpAnn.circle bounds.center_x bounds.center_y radius color 3
    (main,
      if label = "" then none
      else
        some (.label (bounds.center_x + radius + 15) bounds.center_y
          label "darkGray" 14 "white" true))
  else if mcp_type = "highlight" then
    (.highlight bounds.x bounds.y bounds.width bounds.height "yellow" (0.35 : ℚ), none)
  else if mcp_type = "callout" then
    let pointer_dir :=
      if position = "top" then "bottom"
      else if position = "bottom" then "top"
      else if position = "left" then "right"
      else if position = "right" then "left"
      else "left"
    (.callout bounds.center_x bounds.center_y label pointer_dir color "white" true, none)
  else if mcp_type = "label" then
    (.label bounds.center_x (bounds.y - 20) label "darkGray" 14 "white" true, none)
  else if mcp_type = "blur" then
    (.blur bounds.x bounds.y bounds.width bounds.height 8, none)
  else
    (.passthrough mcp_type, none)

/-- One entry of the `annotations` capture configuration list: the dict keys
`extract_annotations` reads with `ann.get(...)`. An absent key is `none`. -/
structure AnnRequest where
  selector : String
  type? : Option String
  label? : Option String
  position? : Option String
  number? : Option ℕ
  deriving DecidableEq, Repr

/-- One entry of the `extracted` list built by `extract_annotations`
(the per-request JSON record). -/
structure ExtractedRecord where
  index : ℕ
  selector : String
  label : String
  type : String
  position : String
  number : ℕ
  bounds : Option Bounds
  found : Bool
  deriving DecidableEq, Repr

/-- The record `extract_annotations` appends to `extracted` for the request at
0-based position `i`; covers both the found and the not-found branch
(`bounds`/`found` are `lookup`-dependent, everything else is shared). -/
def recordOf (lookup : String → Option Bounds) (i : ℕ) (ann : AnnRequest) :
    ExtractedRecord :=
  { index := i + 1
    selector := ann.selector
    label := ann.label?.getD ""
    type := ann.type?.getD "box"
    position := ann.position?.getD "auto"
    number := ann.number?.getD (i + 1)
    bounds := lookup ann.selector
    found := (lookup ann.selector).isSome }

/-- The MCP annotations `extract_annotations` appends to `mcp_annotations` for
the request at 0-based position `i`: nothing when the bounds lookup fails,
otherwise the converted annotation followed by the popped `"_label"` dict
when present. -/
def commandsOf (lookup : String → Option Bounds) (i : ℕ) (ann : AnnRequest) :
    List McpAnn :=
  match lookup ann.selector with
  | none => []
  | some b =>
    let res := convert_to_mcp_format (ann.type?.getD "box") b (ann.label?.getD "")
      (ann.position?.getD "auto") (ann.number?.getD (i + 1))
    match res.2 with
    | some l => [res.1, l]
    | none => [res.1]

/-- The `for i, ann in enumerate(annotations)` loop of `extract_annotations`,
with `i` the 0-based position of the head of the remaining list. -/
def extractGo (lookup : String → Option Bounds) :
    ℕ → List AnnRequest → List ExtractedRecord × List McpAnn
  | _, [] => ([], [])
  | i, ann :: rest =>
    let tail := extractGo lookup (i + 1) rest
    (recordOf lookup i ann :: tail.1, commandsOf lookup i ann ++ tail.2)

/-- `extract_annotations(page, annotations)`: returns
`(extracted, mcp_annotations)`. The page together with `get_element_bounds`
is the pure lookup `String → Option Bounds`. -/
def extract_annotations (lookup : String → Option Bounds)
    (anns : List AnnRequest) : List ExtractedRecord × List McpAnn :=
  extractGo lookup 0 anns

/-- Flattened per-request commands starting at position `i`: the closed form
of the second component of `extractGo`. -/
def cmdsOfAll (lookup : String → Option Bounds) :
    ℕ → List AnnRequest → List McpAnn
  | _, [] => []
  | i, ann :: rest => commandsOf lookup i ann ++ cmdsOfAll lookup (i + 1) rest

theorem extractGo_fst_length (lookup : String → Option Bounds)
    (anns : List AnnRequest) : ∀ i, ((extractGo lookup i anns).1).length = anns.length := by
  induction anns with
  | nil => intro i; rfl
  | cons a rest ih =>
    intro i
    simp [extractGo, ih (i + 1)]

theorem extractGo_fst_get? (lookup : String → Option Bounds)
    (anns : List AnnRequest) :
    ∀ i j a, anns.get? j = some a →
      (extractGo lookup i anns).1.get? j = some (recordOf lookup (i + j) a) := by
  induction anns with
  | nil => intro i j a h; simp at h
  | cons b rest ih =>
    intro i j a h
    cases j with
    | zero =>
      simp at h
      subst h
      rfl
    | succ j =>
      simp only [List.get?] at h
      have := ih (i + 1) j a h
      simpa [extractGo, Nat.add_assoc, Nat.add_comm 1 j] using this

theorem extractGo_snd (lookup : String → Option Bounds)
    (anns : List AnnRequest) :
    ∀ i, (extractGo lookup i anns).2 = cmdsOfAll lookup i anns := by
  induction anns with
  | nil => intro i; rfl
  | cons a rest ih =>
    intro i
    simp [extractGo, cmdsOfAll, ih (i + 1)]

theorem extractGo_set (lookup : String → Option Bounds) (a a' : AnnRequest)
    (hrec : ∀ k, recordOf lookup k a' = recordOf lookup k a)
    (hcmd : ∀ k, commandsOf lookup k a' = commandsOf lookup k a) :
    ∀ (anns : List AnnRequest) (i j : ℕ), anns.get? j = some a →
      extractGo lookup i (anns.set j a') = extractGo lookup i anns := by
  intro anns
  induction anns with
  | nil => intro i j h; simp at h
  | cons hd tl ih =>
    intro i j h
    cases j with
    | zero =>
      simp at h
      subst h
      simp [extractGo, hrec i, hcmd i]
    | succ j =>
      simp only [List.get?] at h
      simp [extractGo, ih (i + 1) j h]

/-- C1: the claim says an unrecognized `semanticType` such as `"sparkle"` is
rejected by `convert_to_mcp_format` with an explicit error naming the invalid
type. The code instead falls through every branch and returns the bare
pass-through command `{"type": "sparkle"}` with no geometry or style fields
and no error — this theorem evaluates the code at that failing input. -/
theorem C1_unknown_type_passthrough :
    convert_to_mcp_format "sparkle" (mkBounds 0 0 10 10) "" "auto" 1 =
      (.passthrough "sparkle", none) := by decide

/-- C3: the primary arrow command places `from` 100px outside and `to` 5px
outside the rect edge named by `position`, on the perpendicular center line,
and `position="auto"` behaves exactly as `position="right"`. -/
theorem C3_arrow_geometry (x y w h : ℕ) (lbl : String) (n : ℕ) :
    (convert_to_mcp_format "arrow" (mkBounds x y w h) lbl "left" n).1 =
      .arrow ((x : ℤ) - 100, ((y + h / 2 : ℕ) : ℤ))
        ((x : ℤ) - 5, ((y + h / 2 : ℕ) : ℤ)) "primary" 2 ∧
    (convert_to_mcp_format "arrow" (mkBounds x y w h) lbl "right" n).1 =
      .arrow ((x : ℤ) + (w : ℤ) + 100, ((y + h / 2 : ℕ) : ℤ))
        ((x : ℤ) + (w : ℤ) + 5, ((y + h / 2 : ℕ) : ℤ)) "primary" 2 ∧
    (convert_to_mcp_format "arrow" (mkBounds x y w h) lbl "top" n).1 =
      .arrow (((x + w / 2 : ℕ) : ℤ), (y : ℤ) - 100)
        (((x + w / 2 : ℕ) : ℤ), (y : ℤ) - 5) "primary" 2 ∧
    (convert_to_mcp_format "arrow" (mkBounds x y w h) lbl "bottom" n).1 =
      .arrow (((x + w / 2 : ℕ) : ℤ), (y : ℤ) + (h : ℤ) + 100)
        (((x + w / 2 : ℕ) : ℤ), (y : ℤ) + (h : ℤ) + 5) "primary" 2 ∧
    (convert_to_mcp_format "arrow" (mkBounds x y w h) lbl "auto" n).1 =
      (convert_to_mcp_format "arrow" (mkBounds x y w h) lbl "right" n).1 :=
  ⟨rfl, rfl, rfl, rfl, rfl⟩

/-- C4: a box request yields a rect command inflated by 4px on every side with
strokeWidth 3; on rect `{x:100, y:200, width:50, height:20}` with label
`"Save"` and position `"top"` this gives primary rect `{96, 196, 58, 28}` and
an auxiliary label anchored at `(125, 175)`. -/
theorem C4_box_geometry (b : Bounds) (lbl p : String) (n : ℕ) :
    (convert_to_mcp_format "box" b lbl p n).1 =
      .rect (b.x - 4) (b.y - 4) (b.width + 8) (b.height + 8) "red" 3 ∧
    convert_to_mcp_format "box" (mkBounds 100 200 50 20) "Save" "top" 1 =
      (.rect 96 196 58 28 "red" 3,
       some (.label 125 175 "Save" "darkGray" 14 "white" true)) :=
  ⟨rfl, by decide⟩

/-- C5: a circle request yields a circle command centered at the rect's center
with radius `floor(max(w, h) / 2) + 8` and strokeWidth 3. -/
theorem C5_circle_radius (x y w h : ℕ) (lbl p : String) (n : ℕ) :
    (convert_to_mcp_format "circle" (mkBounds x y w h) lbl p n).1 =
      .circle ((x + w / 2 : ℕ) : ℤ) ((y + h / 2 : ℕ) : ℤ)
        ((max w h / 2 + 8 : ℕ) : ℤ) "red" 3 := by
  have hrad : Int.fdiv (max (w : ℤ) (h : ℤ)) 2 + 8 = ((max w h / 2 + 8 : ℕ) : ℤ) := by
    rw [← Nat.cast_max w h, show ((2 : ℤ)) = ((2 : ℕ) : ℤ) by norm_num, ← Int.ofNat_fdiv]
    push_cast
    ring
  calc (convert_to_mcp_format "circle" (mkBounds x y w h) lbl p n).1
      = .circle ((x + w / 2 : ℕ) : ℤ) ((y + h / 2 : ℕ) : ℤ)
          (Int.fdiv (max (w : ℤ) (h : ℤ)) 2 + 8) "red" 3 := rfl
    _ = _ := by rw [hrad]

/-- C6: a highlight request yields a highlight command covering exactly the
input rect with color `"yellow"` and opacity `0.35`, independent of the
caller-supplied label, position and number, and with no auxiliary label. -/
theorem C6_highlight_fixed (b : Bounds) (lbl p : String) (n : ℕ) :
    convert_to_mcp_format "highlight" b lbl p n =
      (.highlight b.x b.y b.width b.height "yellow" (0.35 : ℚ), none) := rfl

/-- C9: for every bounds and every position string, the primary arrow command
has color `"primary"` and strokeWidth 2. -/
theorem C9_arrow_style (b : Bounds) (lbl p : String) (n : ℕ) :
    ∃ f t, (convert_to_mcp_format "arrow" b lbl p n).1 = .arrow f t "primary" 2 :=
  ⟨_, _, rfl⟩

/-- C2 counterexample: the claim says the arrow label is anchored 10px outward
from the arrow's from-point, so for `position="left"` its x-coordinate would
be `rect.x - 110`. On rect `{x:200, y:0, width:10, height:10}` the code
anchors the label at x = 110 = from.x + 10 (inward), while the claim predicts
`200 - 110 = 90`. -/
theorem C2_arrow_label_counterexample :
    (convert_to_mcp_format "arrow" (mkBounds 200 0 10 10) "L" "left" 1).2 =
      some (.label 110 5 "L" "darkGray" 14 "white" true) ∧
    (110 : ℤ) ≠ 200 - 110 := by decide

/-- C2 (amended): for a non-empty label, the auxiliary arrow label is anchored
at a horizontal offset of +10 from the arrow's from-point when position is
`left` or `auto` and −10 otherwise, with y equal to the from-point's y: for
`left` the x is `rect.x - 100 + 10` (toward the element, not outward), for
`right` it is `rect.x + width + 100 - 10`, for `top`/`bottom` the offset is
perpendicular to the arrow (x = centerX − 10), and for `auto` the x is
`rect.x + width + 100 + 10`. -/
theorem C2_arrow_label_offset (x y w h : ℕ) (lbl : String) (n : ℕ)
    (hl : lbl ≠ "") :
    (convert_to_mcp_format "arrow" (mkBounds x y w h) lbl "left" n).2 =
      some (.label ((x : ℤ) - 100 + 10) ((y + h / 2 : ℕ) : ℤ)
        lbl "darkGray" 14 "white" true) ∧
    (convert_to_mcp_format "arrow" (mkBounds x y w h) lbl "right" n).2 =
      some (.label ((x : ℤ) + (w : ℤ) + 100 + -10) ((y + h / 2 : ℕ) : ℤ)
        lbl "darkGray" 14 "white" true) ∧
    (convert_to_mcp_format "arrow" (mkBounds x y w h) lbl "top" n).2 =
      some (.label (((x + w / 2 : ℕ) : ℤ) + -10) ((y : ℤ) - 100)
        lbl "darkGray" 14 "white" true) ∧
    (convert_to_mcp_format "arrow" (mkBounds x y w h) lbl "bottom" n).2 =
      some (.label (((x + w / 2 : ℕ) : ℤ) + -10) ((y : ℤ) + (h : ℤ) + 100)
        lbl "darkGray" 14 "white" true) ∧
    (convert_to_mcp_format "arrow" (mkBounds x y w h) lbl "auto" n).2 =
      some (.label ((x : ℤ) + (w : ℤ) + 100 + 10) ((y + h / 2 : ℕ) : ℤ)
        lbl "darkGray" 14 "white" true) := by
  refine ⟨?_, ?_, ?_, ?_, ?_⟩ <;>
    simp [convert_to_mcp_format, TYPE_MAPPING, DEFAULT_COLORS, mkBounds, hl]

/-- C2 witness: the amended statement evaluated on the rect
`{x:200, y:0, width:10, height:10}` with label `"L"`. -/
theorem C2_arrow_label_offset_witness :
    ("L" : String) ≠ "" ∧
    ((convert_to_mcp_format "arrow" (mkBounds 200 0 10 10) "L" "left" 1).2 =
      some (.label ((200 : ℤ) - 100 + 10) 5 "L" "darkGray" 14 "white" true) ∧
    (convert_to_mcp_format "arrow" (mkBounds 200 0 10 10) "L" "right" 1).2 =
      some (.label ((200 : ℤ) + 10 + 100 + -10) 5 "L" "darkGray" 14 "white" true) ∧
    (convert_to_mcp_format "arrow" (mkBounds 200 0 10 10) "L" "top" 1).2 =
      some (.label ((205 : ℤ) + -10) ((0 : ℤ) - 100) "L" "darkGray" 14 "white" true) ∧
    (convert_to_mcp_format "arrow" (mkBounds 200 0 10 10) "L" "bottom" 1).2 =
      some (.label ((205 : ℤ) + -10) ((0 : ℤ) + 10 + 100) "L" "darkGray" 14 "white" true) ∧
    (convert_to_mcp_format "arrow" (mkBounds 200 0 10 10) "L" "auto" 1).2 =
      some (.label ((200 : ℤ) + 10 + 100 + 10) 5 "L" "darkGray" 14 "white" true)) :=
  ⟨by decide, C2_arrow_label_offset 200 0 10 10 "L" 1 (by decide)⟩

/-- Head of the per-request command list when the bounds lookup succeeds: the
primary converted annotation (the popped `"_label"`, when present, comes
second). -/
theorem commandsOf_head (lookup : String → Option Bounds) (i : ℕ)
    (ann : AnnRequest) (b : Bounds) (hb : lookup ann.selector = some b) :
    (commandsOf lookup i ann).head? =
      some ((convert_to_mcp_format (ann.type?.getD "box") b (ann.label?.getD "")
        (ann.position?.getD "auto") (ann.number?.getD (i + 1))).1) := by
  simp only [commandsOf, hb]
  cases hres : (convert_to_mcp_format (ann.type?.getD "box") b (ann.label?.getD "")
      (ann.position?.getD "auto") (ann.number?.getD (i + 1))).2 <;>
    simp [hres]

/-- Test fixture: a page on which every selector resolves to the 2×2 rect at
the origin. -/
def demoLookup : String → Option Bounds := fun _ => some (mkBounds 0 0 2 2)

/-- Test fixture: a `number`-type request with no explicit number. -/
def numberReq (s : String) : AnnRequest := ⟨s, some "number", none, none, none⟩

/-- Test fixture: three `number`-type requests with no explicit numbers. -/
def threeNumberReqs : List AnnRequest :=
  [numberReq "a", numberReq "b", numberReq "c"]

/-- Test fixture: a request whose dict has only a selector. -/
def reqA : AnnRequest := ⟨"a", none, none, none, none⟩

/-- Test fixture: a second selector-only request. -/
def reqB : AnnRequest := ⟨"b", none, none, none, none⟩

/-- Test fixture: a page on which selector `"a"` is not found and every other
selector resolves to the 2×2 rect at the origin. -/
def missLookup : String → Option Bounds :=
  fun s => if s = "a" then none else some (mkBounds 0 0 2 2)

/-- C7: a request that omits the `number` field is assigned its 1-based
ordinal position `j + 1` in the batch, both in its extracted record and in
the marker command it produces; three `number`-type requests with no
explicit numbers yield marker commands numbered 1, 2, 3 in batch order. -/
theorem C7_number_default (lookup : String → Option Bounds)
    (anns : List AnnRequest) (j : ℕ) (a : AnnRequest)
    (h1 : anns.get? j = some a) (h2 : a.number? = none) :
    (extract_annotations lookup anns).1.get? j = some (recordOf lookup j a) ∧
    (recordOf lookup j a).number = j + 1 ∧
    (∀ b, lookup a.selector = some b → a.type? = some "number" →
      commandsOf lookup j a =
        [.marker b.center_x b.center_y (j + 1) "primary" 24]) ∧
    (extract_annotations demoLookup threeNumberReqs).2 =
      [.marker 1 1 1 "primary" 24, .marker 1 1 2 "primary" 24,
       .marker 1 1 3 "primary" 24] := by
  refine ⟨?_, ?_, ?_, by decide⟩
  · simpa using extractGo_fst_get? lookup anns 0 j a h1
  · simp [recordOf, h2]
  · intro b hb ht
    simp [commandsOf, hb, ht, h2, convert_to_mcp_format, TYPE_MAPPING,
      DEFAULT_COLORS]

/-- C7 witness: the first of the three demo `number` requests is assigned
number 1, and the demo batch yields markers numbered 1, 2, 3. -/
theorem C7_number_default_witness :
    (threeNumberReqs.get? 0 = some (numberReq "a") ∧
      (numberReq "a").number? = none) ∧
    ((extract_annotations demoLookup threeNumberReqs).1.get? 0 =
        some (recordOf demoLookup 0 (numberReq "a")) ∧
      (recordOf demoLookup 0 (numberReq "a")).number = 0 + 1 ∧
      (∀ b, demoLookup (numberReq "a").selector = some b →
        (numberReq "a").type? = some "number" →
        commandsOf demoLookup 0 (numberReq "a") =
          [.marker b.center_x b.center_y (0 + 1) "primary" 24]) ∧
      (extract_annotations demoLookup threeNumberReqs).2 =
        [.marker 1 1 1 "primary" 24, .marker 1 1 2 "primary" 24,
         .marker 1 1 3 "primary" 24]) :=
  ⟨⟨rfl, rfl⟩,
   C7_number_default demoLookup threeNumberReqs 0 (numberReq "a") rfl rfl⟩

/-- C8: when the bounds lookup for the request at position `j` fails, its
record has `found = false` and null bounds and contributes no drawing
command, while the record list still has one entry per request in batch
order and the command list is still the concatenation of every request's
own contribution. -/
theorem C8_notfound_soft (lookup : String → Option Bounds)
    (anns : List AnnRequest) (j : ℕ) (a : AnnRequest)
    (h1 : anns.get? j = some a) (h2 : lookup a.selector = none) :
    (extract_annotations lookup anns).1.length = anns.length ∧
    (∀ k b, anns.get? k = some b →
      (extract_annotations lookup anns).1.get? k =
        some (recordOf lookup k b)) ∧
    (extract_annotations lookup anns).1.get? j = some (recordOf lookup j a) ∧
    (recordOf lookup j a).found = false ∧
    (recordOf lookup j a).bounds = none ∧
    commandsOf lookup j a = [] ∧
    (extract_annotations lookup anns).2 = cmdsOfAll lookup 0 anns := by
  refine ⟨extractGo_fst_length lookup anns 0, ?_, ?_, ?_, ?_, ?_,
    extractGo_snd lookup anns 0⟩
  · intro k b hk
    simpa using extractGo_fst_get? lookup anns 0 k b hk
  · simpa using extractGo_fst_get? lookup anns 0 j a h1
  · simp [recordOf, h2]
  · simp [recordOf, h2]
  · simp [commandsOf, h2]

/-- C8 witness: on the two-request demo batch whose first selector is not
found, the first record is a soft failure and the second request is still
processed. -/
theorem C8_notfound_soft_witness :
    ([reqA, reqB].get? 0 = some reqA ∧ missLookup reqA.selector = none) ∧
    ((extract_annotations missLookup [reqA, reqB]).1.length =
        ([reqA, reqB] : List AnnRequest).length ∧
      (∀ k b, ([reqA, reqB] : List AnnRequest).get? k = some b →
        (extract_annotations missLookup [reqA, reqB]).1.get? k =
          some (recordOf missLookup k b)) ∧
      (extract_annotations missLookup [reqA, reqB]).1.get? 0 =
        some (recordOf missLookup 0 reqA) ∧
      (recordOf missLookup 0 reqA).found = false ∧
      (recordOf missLookup 0 reqA).bounds = none ∧
      commandsOf missLookup 0 reqA = [] ∧
      (extract_annotations missLookup [reqA, reqB]).2 =
        cmdsOfAll missLookup 0 [reqA, reqB]) :=
  ⟨⟨rfl, by decide⟩,
   C8_notfound_soft missLookup [reqA, reqB] 0 reqA rfl (by decide)⟩

/-- C10: a request that omits the `type` field is treated as semantic type
`"box"`: its record carries type `"box"`, it contributes exactly the commands
an explicit box request would, the first of them being the padded rect
command for the measured bounds, and replacing the request by its explicit
box form leaves the whole extraction unchanged. -/
theorem C10_default_type_box (lookup : String → Option Bounds)
    (anns : List AnnRequest) (j : ℕ) (a : AnnRequest) (b : Bounds)
    (h1 : anns.get? j = some a) (h2 : a.type? = none)
    (h3 : lookup a.selector = some b) :
    commandsOf lookup j a = commandsOf lookup j { a with type? := some "box" } ∧
    (commandsOf lookup j a).head? =
      some (.rect (b.x - 4) (b.y - 4) (b.width + 8) (b.height + 8) "red" 3) ∧
    extract_annotations lookup (anns.set j { a with type? := some "box" }) =
      extract_annotations lookup anns ∧
    (extract_annotations lookup anns).1.get? j = some (recordOf lookup j a) ∧
    (recordOf lookup j a).type = "box" := by
  have hrec : ∀ k, recordOf lookup k { a with type? := some "box" } =
      recordOf lookup k a := by
    intro k; simp [recordOf, h2]
  have hcmd : ∀ k, commandsOf lookup k { a with type? := some "box" } =
      commandsOf lookup k a := by
    intro k; simp [commandsOf, h2]
  refine ⟨(hcmd j).symm, ?_, ?_, ?_, ?_⟩
  · rw [commandsOf_head lookup j a b h3, h2]; rfl
  · exact extractGo_set lookup a { a with type? := some "box" } hrec hcmd
      anns 0 j h1
  · simpa using extractGo_fst_get? lookup anns 0 j a h1
  · simp [recordOf, h2]

/-- C10 witness: a selector-only request on the demo page behaves as an
explicit box request. -/
theorem C10_default_type_box_witness :
    (([reqA] : List AnnRequest).get? 0 = some reqA ∧ reqA.type? = none ∧
      demoLookup reqA.selector = some (mkBounds 0 0 2 2)) ∧
    (commandsOf demoLookup 0 reqA =
        commandsOf demoLookup 0 { reqA with type? := some "box" } ∧
      (commandsOf demoLookup 0 reqA).head? =
        some (.rect ((mkBounds 0 0 2 2).x - 4) ((mkBounds 0 0 2 2).y - 4)
          ((mkBounds 0 0 2 2).width + 8) ((mkBounds 0 0 2 2).height + 8)
          "red" 3) ∧
      extract_annotations demoLookup
          (([reqA] : List AnnRequest).set 0 { reqA with type? := some "box" }) =
        extract_annotations demoLookup [reqA] ∧
      (extract_annotations demoLookup [reqA]).1.get? 0 =
        some (recordOf demoLookup 0 reqA) ∧
      (recordOf demoLookup 0 reqA).type = "box") :=
  ⟨⟨rfl, rfl, rfl⟩,
   C10_default_type_box demoLookup [reqA] 0 reqA (mkBounds 0 0 2 2)
     rfl rfl rfl⟩

end CaptureScreenshots
